import Mathlib

/-!
Shallow embedding of the camera-pipeline control plane implemented in
`sdk/src/core/pipeline/pipeline_async_impl.cpp` (class `pipeline_async_impl`).

External collaborators (registered CV modules, the device context, the device
manager, and the superset generator of `config_util`) are modelled as an
environment of pure oracles, matching the collaborator contracts at their
interface boundary.  Machine integers of the source (widths, heights, frame
rates) are modelled as `Nat`; the source never does arithmetic on them, only
equality comparison, so no overflow modelling is needed.
-/

namespace PipelineAsync

/-- The image stream kinds enumerated by `stream_type` (depth, color,
infrared, infrared2, fisheye). -/
inductive StreamType
  | depth
  | color
  | infrared
  | infrared2
  | fisheye
  deriving DecidableEq

/-- The list of all stream kinds, in enumeration order, mirroring the loop
`for stream_index = 0 .. stream_type::max`. -/
def allStreams : List StreamType :=
  [StreamType.depth, StreamType.color, StreamType.infrared,
   StreamType.infrared2, StreamType.fisheye]

/-- The motion sensor kinds enumerated by `motion_type` (accel, gyro). -/
inductive MotionType
  | accel
  | gyro
  deriving DecidableEq

/-- The list of all motion kinds, in enumeration order, mirroring the loop
`for motion_index = 0 .. motion_type::max`. -/
def allMotions : List MotionType := [MotionType.accel, MotionType.gyro]

/-- Embeds `video_module_interface::supported_module_config::time_sync_mode`. -/
inductive TimeSyncMode
  | sync_not_required
  | time_synced_input_only
  | time_synced_input_accepting_unmatch_samples
  deriving DecidableEq

/-- Embeds `sizeI32`: width and height of an image stream. -/
structure SizePair where
  width : Nat
  height : Nat
  deriving DecidableEq

/-- Embeds `video_module_interface::supported_image_stream_config`. -/
structure StreamCfg where
  is_enabled : Bool
  size : SizePair
  frame_rate : Nat
  flags : Nat
  deriving DecidableEq

/-- Embeds `video_module_interface::supported_motion_sensor_config`. -/
structure MotionCfg where
  is_enabled : Bool
  sample_rate : Nat
  flags : Nat
  deriving DecidableEq

/-- Embeds `video_module_interface::supported_module_config`: a device-name filter
(empty string = any device), a per-stream config, a per-motion config, the
async-processing flag and the requested time-sync mode. -/
structure SupportedConfig where
  device_name : String
  image_streams_configs : StreamType → StreamCfg
  motion_sensors_configs : MotionType → MotionCfg
  async_processing : Bool
  samples_time_sync_mode : TimeSyncMode

/-- A value-initialized `supported_image_stream_config` (`= {}` in C++). -/
def emptyStreamCfg : StreamCfg := ⟨false, ⟨0, 0⟩, 0, 0⟩

/-- A value-initialized `supported_motion_sensor_config` (`= {}` in C++). -/
def emptyMotionCfg : MotionCfg := ⟨false, 0, 0⟩

/-- A value-initialized `supported_module_config` (`= {}` in C++): empty
device name, all streams and motions disabled with zero parameters. -/
def emptyConfig : SupportedConfig :=
  { device_name := ""
    image_streams_configs := fun _ => emptyStreamCfg
    motion_sensors_configs := fun _ => emptyMotionCfg
    async_processing := false
    samples_time_sync_mode := TimeSyncMode.sync_not_required }

/-- The status codes of `rs::core::status` used by the pipeline.  In the
source `status_no_error = 0` and every other code listed here is negative,
so `s < status_no_error` is `s ≠ no_error` on this set. -/
inductive Status
  | no_error
  | data_not_initialized
  | invalid_state
  | param_inplace
  | value_out_of_range
  | handle_invalid
  | data_unavailable
  | invalid_argument
  | match_not_found
  | device_failed
  deriving DecidableEq

/-- Embeds `s < status_no_error` for the codes the pipeline produces (all error
codes in `Status` are negative in the source enumeration). -/
def Status.isError : Status → Bool
  | Status.no_error => false
  | _ => true

/-- Embeds `pipeline_async_impl::state`. -/
inductive PState
  | unconfigured
  | configured
  | streaming
  deriving DecidableEq

/-- The per-module tuple stored in `m_modules_configs`:
`(actual_module_config, async_processing, samples_time_sync_mode)`.  The
actual (device-bound) config is an opaque token produced by the device
manager, modelled as `Nat`. -/
structure ModuleEntry where
  actual : Nat
  async : Bool
  sync_mode : TimeSyncMode
  deriving DecidableEq

/-- A sample consumer created by `start`: the application's sync consumer, or
a per-module sync or async consumer. -/
inductive Consumer
  | app
  | moduleSync (m : Nat)
  | moduleAsync (m : Nat)
  deriving DecidableEq

/-- The mutable fields of `pipeline_async_impl`.  Module handles are `Nat`
tokens (`Option Nat` at the API where a null pointer is possible); the
device-manager handle is an opaque `Nat` token. -/
structure PipelineState where
  current_state : PState
  cv_modules : List Nat
  modules_configs : List (Nat × ModuleEntry)
  device_manager : Option Nat
  samples_consumers : List Consumer
  user_time_sync : TimeSyncMode
  deriving DecidableEq

/-- The freshly constructed pipeline (`pipeline_async_impl()` constructor):
unconfigured, no modules, no configs, no device manager, no consumers,
`sync_not_required`. -/
def initState : PipelineState :=
  { current_state := PState.unconfigured
    cv_modules := []
    modules_configs := []
    device_manager := none
    samples_consumers := []
    user_time_sync := TimeSyncMode.sync_not_required }

/-- The external collaborators, as pure oracles:
* `module_configs m` — the finite enumeration a module yields through
  repeated `query_supported_module_config` calls (Capability Enumerator);
* `set_module_config_ok m a` — whether `set_module_config` on module `m`
  with actual config token `a` returns a non-error status;
* `devices`, `dev_name` — the context's device list and device names;
* `dm_ctor dev cfg` — the `device_manager` constructor: `none` models a
  thrown exception, `some dm` a successfully constructed manager token;
* `create_actual dm cfg` — `create_actual_config_from_supported_config`;
* `device_start_ok dm` — whether `device_manager::start()` succeeds
  (`false` models a thrown exception);
* `gen_supersets groups` — `config_util::generete_matching_supersets`. -/
structure Env where
  module_configs : Nat → List SupportedConfig
  set_module_config_ok : Nat → Nat → Bool
  devices : List Nat
  dev_name : Nat → String
  dm_ctor : Option Nat → SupportedConfig → Option Nat
  create_actual : Nat → SupportedConfig → Nat
  device_start_ok : Nat → Bool
  gen_supersets : List (List SupportedConfig) → List SupportedConfig

/-- Modelled from the spec: `config_util::is_config_empty` (the file
`config_util.cpp` is not under `src/`).  Per §4.4 step 1 a restriction is
"empty/unset" when it requests nothing: no device name, no enabled image
stream, no enabled motion sensor. -/
def is_config_empty (c : SupportedConfig) : Bool :=
  c.device_name = "" &&
  allStreams.all (fun s => !(c.image_streams_configs s).is_enabled) &&
  allMotions.all (fun m => !(c.motion_sensors_configs m).is_enabled)

/-- Embeds `pipeline_async_impl::add_cv_module`: null handle is rejected first,
then non-`unconfigured` states, then duplicates; otherwise the module is
appended. -/
def add_cv_module (st : PipelineState) (m : Option Nat) :
    Status × PipelineState :=
  match m with
  | none => (Status.data_not_initialized, st)
  | some mid =>
    match st.current_state with
    | PState.streaming => (Status.invalid_state, st)
    | PState.configured => (Status.invalid_state, st)
    | PState.unconfigured =>
      if st.cv_modules.contains mid then
        (Status.param_inplace, st)
      else
        (Status.no_error, { st with cv_modules := st.cv_modules ++ [mid] })

/-- Embeds `pipeline_async_impl::get_device_from_config`: first device (in context
enumeration order) whose name matches, where an empty name in the config
accepts any device. -/
def get_device_from_config (env : Env) (cfg : SupportedConfig) : Option Nat :=
  env.devices.find? (fun d =>
    decide (cfg.device_name = "") || decide (env.dev_name d = cfg.device_name))

/-- The device-name test of `is_there_a_satisfying_module_config`
(lines 328–329): the given (superset) config's device name is empty, or it
equals the candidate's device name. -/
def device_name_ok (given candidate : SupportedConfig) : Bool :=
  decide (given.device_name = "") ||
  decide (given.device_name = candidate.device_name)

/-- The stream loop of `is_there_a_satisfying_module_config` (lines
337–359): every stream the candidate enables must be enabled in the given
config with equal width and height and (equal frame rate or candidate frame
rate 0). -/
def all_streams_ok (given candidate : SupportedConfig) : Bool :=
  allStreams.all (fun s =>
    let sc := candidate.image_streams_configs s
    !sc.is_enabled ||
      (let gc := given.image_streams_configs s
       gc.is_enabled &&
       decide (sc.size.width = gc.size.width) &&
       decide (sc.size.height = gc.size.height) &&
       (decide (sc.frame_rate = gc.frame_rate) || decide (sc.frame_rate = 0))))

/-- The motion loop of `is_there_a_satisfying_module_config` (lines
365–384): every motion sensor the candidate enables must be enabled in the
given config. -/
def all_motions_ok (given candidate : SupportedConfig) : Bool :=
  allMotions.all (fun m =>
    !(candidate.motion_sensors_configs m).is_enabled ||
    (given.motion_sensors_configs m).is_enabled)

/-- The candidate loop of `is_there_a_satisfying_module_config`: walk the
module's declared configurations in order, skip a candidate whose device
name mismatches, whose streams are unsatisfied or whose motions are
unsatisfied, and return the first surviving candidate. -/
def matchFirst (given : SupportedConfig) :
    List SupportedConfig → Option SupportedConfig
  | [] => none
  | c :: rest =>
    if !device_name_ok given c then matchFirst given rest
    else if !all_streams_ok given c then matchFirst given rest
    else if !all_motions_ok given c then matchFirst given rest
    else some c

/-- Embeds `pipeline_async_impl::is_there_a_satisfying_module_config`: `some c`
stands for `true` with `satisfying_config = c`, `none` for `false`. -/
def is_there_a_satisfying_module_config (env : Env) (m : Nat)
    (given : SupportedConfig) : Option SupportedConfig :=
  matchFirst given (env.module_configs m)

/-- The tuple saved for a matched module (line 546):
`(create_actual_config_from_supported_config(satisfying), satisfying.async_processing, satisfying.samples_time_sync_mode)`. -/
def module_entry_of (env : Env) (dm : Nat) (satisfying : SupportedConfig) :
    ModuleEntry :=
  ⟨env.create_actual dm satisfying, satisfying.async_processing,
   satisfying.samples_time_sync_mode⟩

/-- The matcher loop of `set_config_unsafe` (lines 538–554): find a
satisfying config for every registered module in registration order;
`none` as soon as one module has no satisfying config. -/
def collect_modules_configs (env : Env) (dm : Nat)
    (superset : SupportedConfig) :
    List Nat → Option (List (Nat × ModuleEntry))
  | [] => some []
  | m :: rest =>
    match is_there_a_satisfying_module_config env m superset with
    | none => none
    | some satisfying =>
      match collect_modules_configs env dm superset rest with
      | none => none
      | some entries => some ((m, module_entry_of env dm satisfying) :: entries)

/-- The apply loop of `set_config_unsafe` (lines 562–573): whether
`set_module_config` succeeds on every module with its saved actual config. -/
def apply_all (env : Env) (entries : List (Nat × ModuleEntry)) : Bool :=
  entries.all (fun e => env.set_module_config_ok e.1 e.2.actual)

/-- Prepend a superset to the attempt trace of a negotiation result. -/
def consAttempt (s : SupportedConfig)
    (r : Status × PipelineState × List SupportedConfig) :
    Status × PipelineState × List SupportedConfig :=
  (r.1, r.2.1, s :: r.2.2)

/-- The superset loop of `set_config_unsafe` (lines 511–594).  Each
iteration first discards the committed device manager (`m_device_manager.reset()`),
then tries to construct a device manager for the superset, to find a
satisfying config for every module, and to apply every module's config;
any failure moves to the next superset, success commits the new device
manager, module configs and the caller's time-sync mode.  Besides the
status and the final state it returns the list of supersets attempted, in
order. -/
def negotiate_loop (env : Env) (cfg : SupportedConfig)
    (st : PipelineState) :
    List SupportedConfig → Status × PipelineState × List SupportedConfig
  | [] => (Status.match_not_found, st, [])
  | s :: rest =>
    let st0 := { st with device_manager := none }
    match env.dm_ctor (get_device_from_config env s) s with
    | none => consAttempt s (negotiate_loop env cfg st0 rest)
    | some dm =>
      match collect_modules_configs env dm s st.cv_modules with
      | none => consAttempt s (negotiate_loop env cfg st0 rest)
      | some entries =>
        if apply_all env entries then
          (Status.no_error,
           { st0 with
              device_manager := some dm
              modules_configs := entries
              user_time_sync := cfg.samples_time_sync_mode },
           [s])
        else consAttempt s (negotiate_loop env cfg st0 rest)

/-- Embeds `pipeline_async_impl::set_config_unsafe`: reject an empty restriction
with no registered modules, otherwise enumerate every module's candidate
configs, append the restriction as a one-element group, generate the
supersets and run the superset loop. -/
def set_config_unlocked (env : Env) (cfg : SupportedConfig)
    (st : PipelineState) : Status × PipelineState × List SupportedConfig :=
  if is_config_empty cfg && st.cv_modules.isEmpty then
    (Status.invalid_argument, st, [])
  else
    let groups := st.cv_modules.map env.module_configs ++ [[cfg]]
    negotiate_loop env cfg st (env.gen_supersets groups)

/-- Embeds `pipeline_async_impl::set_config`: illegal while streaming; otherwise
runs `set_config_unsafe` (modelled as set_config_unlocked) and moves to `configured` only on success (on
failure `m_current_state` is left as it was). -/
def set_config (env : Env) (cfg : SupportedConfig) (st : PipelineState) :
    Status × PipelineState :=
  match st.current_state with
  | PState.streaming => (Status.invalid_state, st)
  | _ =>
    let r := set_config_unlocked env cfg st
    if r.1 = Status.no_error then
      (r.1, { r.2.1 with current_state := PState.configured })
    else
      (r.1, r.2.1)

/-- Embeds `pipeline_async_impl::query_current_config` (status only): illegal in
`unconfigured`, `data_unavailable` when no device manager is committed,
otherwise success. -/
def query_current_config (st : PipelineState) : Status :=
  match st.current_state with
  | PState.unconfigured => Status.invalid_state
  | _ =>
    if st.device_manager.isSome then Status.no_error
    else Status.data_unavailable

/-- Embeds `pipeline_async_impl::get_hardcoded_superset_config`: all five image
streams enabled at 640x480 with frame rate 30, accelerometer at 250Hz, gyroscope
at 200Hz, no forced time sync. -/
def get_hardcoded_superset_config : SupportedConfig :=
  { device_name := ""
    image_streams_configs := fun _ =>
      { is_enabled := true, size := ⟨640, 480⟩, frame_rate := 30, flags := 0 }
    motion_sensors_configs := fun m =>
      match m with
      | MotionType.accel => { is_enabled := true, sample_rate := 250, flags := 0 }
      | MotionType.gyro => { is_enabled := true, sample_rate := 200, flags := 0 }
    async_processing := false
    samples_time_sync_mode := TimeSyncMode.sync_not_required }

/-- Embeds `pipeline_async_impl::query_default_config`: index 0 returns the
hardcoded config, any other index is out of range. -/
def query_default_config (index : Nat) :
    Status × Option SupportedConfig :=
  if index ≠ 0 then (Status.value_out_of_range, none)
  else (Status.no_error, some get_hardcoded_superset_config)

/-- The events of a teardown, for stating the ordering invariant. -/
inductive TEvent
  | clearConsumers
  | flushModule (m : Nat)
  | deviceStop
  deriving DecidableEq

/-- Embeds `pipeline_async_impl::ordered_resources_reset`: clear the consumer
list, flush every registered module, then stop the device (skipped when no
device manager is committed).  Returns the new state and the event trace in
execution order.  The device-manager handle itself is not discarded. -/
def ordered_resources_reset (st : PipelineState) :
    PipelineState × List TEvent :=
  ({ st with samples_consumers := [] },
   TEvent.clearConsumers ::
     (st.cv_modules.map TEvent.flushModule ++
      (if st.device_manager.isSome then [TEvent.deviceStop] else [])))

/-- Embeds `pipeline_async_impl::stop`: legal only while streaming; runs the
ordered teardown and moves to `configured`. -/
def stop (st : PipelineState) : Status × PipelineState × List TEvent :=
  match st.current_state with
  | PState.streaming =>
    let r := ordered_resources_reset st
    (Status.no_error, { r.1 with current_state := PState.configured }, r.2)
  | _ => (Status.invalid_state, st, [])

/-- Embeds `pipeline_async_impl::reset`: runs the ordered teardown from any state,
then discards the device manager, the module list, the module configs and
the requested time-sync mode, and moves to `unconfigured`. -/
def reset (st : PipelineState) : Status × PipelineState × List TEvent :=
  let r := ordered_resources_reset st
  (Status.no_error,
   { r.1 with
      device_manager := none
      cv_modules := []
      modules_configs := []
      user_time_sync := TimeSyncMode.sync_not_required
      current_state := PState.unconfigured },
   r.2)

/-- Embeds `pipeline_async_impl::~pipeline_async_impl`: destruction runs the
ordered teardown; only its event trace is observable. -/
def pipeline_destructor (st : PipelineState) : List TEvent :=
  (ordered_resources_reset st).2

/-- The per-module tuple looked up by `start` through
`m_modules_configs[cv_module]` (`std::map::operator[]` default-constructs a
tuple when the key is absent). -/
def entry_of (st : PipelineState) (m : Nat) : ModuleEntry :=
  (st.modules_configs.lookup m).getD ⟨0, false, TimeSyncMode.sync_not_required⟩

/-- The consumer set built by `start` (lines 180–234): one sync consumer
for the application handler when present, then one consumer per registered
module in registration order — async when the module's saved
`async_processing` flag is set, sync otherwise. -/
def build_consumers (st : PipelineState) (hasHandler : Bool) : List Consumer :=
  (if hasHandler then [Consumer.app] else []) ++
  st.cv_modules.map (fun m =>
    if (entry_of st m).async then Consumer.moduleAsync m else Consumer.moduleSync m)

/-- The tail of `pipeline_async_impl::start` after the state switch (lines
177–258).  The source asserts `m_current_state == configured` and
`m_device_manager != nullptr` and then dereferences the device manager;
`none` models that assertion failure (unreachable in the intended
invariant).  Otherwise: build the consumer set, start the device —
returning `device_failed` and discarding the fresh consumers if the device
throws — and only on success install the consumers and move to
`streaming`. -/
def start_from_configured (env : Env) (hasHandler : Bool)
    (st : PipelineState) : Option (Status × PipelineState) :=
  match st.device_manager with
  | none => none
  | some dm =>
    let consumers := build_consumers st hasHandler
    if env.device_start_ok dm then
      some (Status.no_error,
            { st with
               samples_consumers := consumers
               current_state := PState.streaming })
    else
      some (Status.device_failed, st)

/-- Embeds `pipeline_async_impl::start`: illegal while streaming; from
`unconfigured` first runs `set_config_unsafe` (modelled as set_config_unlocked) with an empty (value
initialized) restriction, returning its error on failure and moving to
`configured` on success; then proceeds as from `configured`. -/
def start (env : Env) (hasHandler : Bool) (st : PipelineState) :
    Option (Status × PipelineState) :=
  match st.current_state with
  | PState.streaming => some (Status.invalid_state, st)
  | PState.unconfigured =>
    let r := set_config_unlocked env emptyConfig st
    if r.1.isError then some (r.1, r.2.1)
    else start_from_configured env hasHandler
           { r.2.1 with current_state := PState.configured }
  | PState.configured => start_from_configured env hasHandler st


/-! ## Concrete fixtures used by witnesses and counterexamples -/

/-- A stream config requesting 640x480 at 30fps. -/
def vgaStream : StreamCfg := { is_enabled := true, size := ⟨640, 480⟩, frame_rate := 30, flags := 0 }

/-- A config enabling only the depth stream at 640x480@30, any device. -/
def cfgDepth : SupportedConfig :=
  { emptyConfig with
     image_streams_configs := fun s =>
       if s = StreamType.depth then vgaStream else emptyStreamCfg }

/-- A config with device-name filter "NOPE" and nothing enabled. -/
def cfgNope : SupportedConfig := { emptyConfig with device_name := "NOPE" }

/-- A config with device-name filter "X" and nothing enabled. -/
def cfgNamedX : SupportedConfig := { emptyConfig with device_name := "X" }

/-- A benign environment: one device named "ZR300", no module configs,
every module accepts every actual config, device construction succeeds
whenever a device was found, device start succeeds. -/
def envBase : Env :=
  { module_configs := fun _ => []
    set_module_config_ok := fun _ _ => true
    devices := [0]
    dev_name := fun _ => "ZR300"
    dm_ctor := fun d _ => d
    create_actual := fun dm _ => dm
    device_start_ok := fun _ => true
    gen_supersets := fun groups => groups.flatten }

/-- An environment where module 7 declares the single candidate `cfgDepth`
and negotiation over the single superset `cfgDepth` succeeds. -/
def envGood : Env :=
  { envBase with
     module_configs := fun m => if m = 7 then [cfgDepth] else []
     gen_supersets := fun _ => [cfgDepth] }

/-- Like `envGood` but the device-manager constructor always throws, so
every superset candidate fails. -/
def envBad : Env :=
  { envGood with dm_ctor := fun _ _ => none }

/-- The pipeline after registering module 7 on a fresh pipeline. -/
def stRegistered : PipelineState := (add_cv_module initState (some 7)).2

/-- The pipeline after a successful `set_config` with `cfgDepth` following
registration of module 7 (state `configured`, device manager committed). -/
def stConfigured : PipelineState := (set_config envGood cfgDepth stRegistered).2

/-- An environment where module 9 declares a single all-disabled candidate. -/
def envMatcherC4 : Env :=
  { envBase with module_configs := fun m => if m = 9 then [emptyConfig] else [] }

/-- An environment where module 4 declares an all-disabled unnamed
candidate followed by an all-disabled candidate filtered to device "X". -/
def envMatcherC5 : Env :=
  { envBase with
     module_configs := fun m => if m = 4 then [emptyConfig, cfgNamedX] else [] }

/-- The device-name acceptance condition in the words of the claim (to be
compared with the source's `device_name_ok`): the candidate's device-name
filter is empty or equals the superset's resolved device name. -/
def claim_device_name_cond (candidate given : SupportedConfig) : Bool :=
  decide (candidate.device_name = "") ||
  decide (candidate.device_name = given.device_name)

/-- A fresh pipeline with module 3 already registered. -/
def stOneModule : PipelineState := { initState with cv_modules := [3] }

/-- A pipeline in the configured state (fields otherwise fresh). -/
def stConfEmpty : PipelineState :=
  { initState with current_state := PState.configured }

/-- Like `envGood` but the device refuses to start. -/
def envNoStart : Env := { envGood with device_start_ok := fun _ => false }

/-! ## Helper lemmas -/

/-- The value-initialized config is empty in the sense of the negotiation
guard. -/
theorem is_config_empty_emptyConfig : is_config_empty emptyConfig = true := rfl

/-- The candidate loop of the matcher returns exactly the first candidate
passing the device-name, stream and motion checks. -/
theorem matchFirst_eq_find (given : SupportedConfig)
    (cs : List SupportedConfig) :
    matchFirst given cs =
      cs.find? (fun c =>
        device_name_ok given c && all_streams_ok given c &&
        all_motions_ok given c) := by
  induction cs with
  | nil => rfl
  | cons c rest ih =>
    cases hd : device_name_ok given c <;>
      cases hs : all_streams_ok given c <;>
        cases hm : all_motions_ok given c <;>
          simp [matchFirst, List.find?, hd, hs, hm, ih]

/-! ## Claims -/

/-- C1 (counterexample): on a fresh pipeline with zero registered modules
and no prior set_config, and a benign environment in which a device exists
and device construction and start always succeed, start() does NOT succeed:
it returns invalid_argument and leaves the pipeline unchanged (still
unconfigured, not streaming). -/
theorem C1_counterexample :
    start envBase true initState = some (Status.invalid_argument, initState) ∧
    initState.current_state = PState.unconfigured ∧
    Status.invalid_argument ≠ Status.no_error := by
  refine ⟨by decide, rfl, by decide⟩

/-- C1 (amended): calling start() while the pipeline is unconfigured with
zero registered modules and no prior set_config fails with
invalid-argument before any negotiation (the empty restriction with no
modules is rejected), leaving the pipeline unchanged; the hardcoded
default configuration (depth/color/infrared/infrared2/fisheye streams at
640x480@30fps, accelerometer at 250Hz, gyroscope at 200Hz, no forced
time-sync) is only exposed through query_default_config, which is where
those values live. -/
theorem C1_start_no_modules (env : Env) (hasHandler : Bool)
    (st : PipelineState)
    (hstate : st.current_state = PState.unconfigured)
    (hmods : st.cv_modules = []) :
    start env hasHandler st = some (Status.invalid_argument, st) ∧
    query_default_config 0 =
      (Status.no_error, some get_hardcoded_superset_config) ∧
    (∀ s, get_hardcoded_superset_config.image_streams_configs s = vgaStream) ∧
    get_hardcoded_superset_config.motion_sensors_configs MotionType.accel =
      { is_enabled := true, sample_rate := 250, flags := 0 } ∧
    get_hardcoded_superset_config.motion_sensors_configs MotionType.gyro =
      { is_enabled := true, sample_rate := 200, flags := 0 } ∧
    get_hardcoded_superset_config.samples_time_sync_mode =
      TimeSyncMode.sync_not_required := by
  refine ⟨?_, rfl, fun s => rfl, rfl, rfl, rfl⟩
  simp [start, hstate, set_config_unlocked, hmods, is_config_empty_emptyConfig,
        Status.isError]

/-- C1 (witness for the amended claim): the amended statement holds on a
fresh pipeline under the environment of a working device. -/
theorem C1_start_no_modules_witness :
    start envGood true initState = some (Status.invalid_argument, initState) ∧
    query_default_config 0 =
      (Status.no_error, some get_hardcoded_superset_config) := by
  have h := C1_start_no_modules envGood true initState rfl rfl
  exact ⟨h.1, h.2.1⟩

/-- C2 (code bug, evaluated at the failing input): after registering module
7 and committing a configuration (state configured, device manager
present), a renegotiation in which every superset candidate fails leaves
the pipeline with current_state still configured — not unconfigured as the
claim states — while the device manager is gone. -/
theorem C2_failed_renegotiation :
    stConfigured.current_state = PState.configured ∧
    stConfigured.device_manager = some 0 ∧
    (set_config envBad cfgDepth stConfigured).1 = Status.match_not_found ∧
    (set_config envBad cfgDepth stConfigured).2.current_state =
      PState.configured ∧
    (set_config envBad cfgDepth stConfigured).2.device_manager = none := by
  decide

/-- C3 (code bug, evaluated at the failing input): the state reached by
register(7); set_config(success); set_config(all candidates fail) violates
the claimed invariant — the lifecycle state is configured yet no device
manager exists, so "device manager exists iff state is configured or
streaming" fails, while the stale module configurations are still
present. -/
theorem C3_invariant_violated :
    (set_config envBad cfgDepth stConfigured).2.current_state =
      PState.configured ∧
    (set_config envBad cfgDepth stConfigured).2.device_manager = none ∧
    (set_config envBad cfgDepth stConfigured).2.modules_configs ≠ [] ∧
    ¬(((set_config envBad cfgDepth stConfigured).2.device_manager.isSome =
         true) ↔
      ((set_config envBad cfgDepth stConfigured).2.current_state =
         PState.configured ∨
       (set_config envBad cfgDepth stConfigured).2.current_state =
         PState.streaming)) := by
  decide

/-- C4 (counterexample): module 9 declares a single candidate (index 0)
whose streams and motions are all disabled, so the claim's stream and
motion conditions hold against the superset named "X"; yet the matcher
reports no match, because the candidate is skipped by the device-name
check the claim omits. -/
theorem C4_counterexample :
    all_streams_ok cfgNamedX emptyConfig = true ∧
    all_motions_ok cfgNamedX emptyConfig = true ∧
    is_there_a_satisfying_module_config envMatcherC4 9 cfgNamedX = none := by
  refine ⟨by decide, by decide, rfl⟩

/-- C4 (amended): the matcher returns the first candidate, in the module's
declared enumeration order, that passes the device-name check (superset
device name empty or equal to the candidate's) AND whose enabled streams
are all enabled in the superset with equal width and height and equal
frame rate or candidate frame rate 0 AND whose enabled motion sensors are
all enabled in the superset; if no candidate passes all three checks the
matcher reports no match. -/
theorem C4_matcher_first_match (env : Env) (m : Nat)
    (given : SupportedConfig) :
    is_there_a_satisfying_module_config env m given =
      (env.module_configs m).find? (fun c =>
        device_name_ok given c && all_streams_ok given c &&
        all_motions_ok given c) ∧
    (is_there_a_satisfying_module_config env m given = none ↔
      ∀ c ∈ env.module_configs m,
        (device_name_ok given c && all_streams_ok given c &&
         all_motions_ok given c) = false) := by
  refine ⟨matchFirst_eq_find given (env.module_configs m), ?_⟩
  rw [is_there_a_satisfying_module_config,
      matchFirst_eq_find given (env.module_configs m), List.find?_eq_none]
  simp

/-- C5 (counterexample): module 4 declares candidate 0 with an empty
device-name filter and candidate 1 with filter "X"; against a superset
whose device name is "X" the claim accepts candidate 0 (its filter is
empty), but the code skips it — its check compares the superset's name
against the candidate's and treats only an empty superset name as a
wildcard — and returns candidate 1 instead. -/
theorem C5_counterexample :
    claim_device_name_cond emptyConfig cfgNamedX = true ∧
    device_name_ok cfgNamedX emptyConfig = false ∧
    is_there_a_satisfying_module_config envMatcherC5 4 cfgNamedX =
      some cfgNamedX ∧
    cfgNamedX.device_name ≠ emptyConfig.device_name := by
  refine ⟨by decide, by decide, rfl, by decide⟩

/-- C5 (amended): a candidate whose streams and motions are satisfied is
accepted exactly when the superset's device name is empty or equals the
candidate's device name; a candidate is skipped on the device-name check
exactly when the superset carries a non-empty device name different from
the candidate's. -/
theorem C5_device_name_rule (given c : SupportedConfig)
    (hs : all_streams_ok given c = true)
    (hm : all_motions_ok given c = true) :
    matchFirst given [c] = some c ↔
      (given.device_name = "" ∨ given.device_name = c.device_name) := by
  have hdev : device_name_ok given c = true ↔
      (given.device_name = "" ∨ given.device_name = c.device_name) := by
    simp [device_name_ok]
  cases hd : device_name_ok given c
  · rw [hd] at hdev
    have hnone : matchFirst given [c] = none := by simp [matchFirst, hd]
    rw [hnone]
    constructor
    · intro h; cases h
    · intro h
      exact (Bool.false_ne_true (hdev.mpr h)).elim
  · rw [hd] at hdev
    have hsome : matchFirst given [c] = some c := by
      simp [matchFirst, hd, hs, hm]
    rw [hsome]
    exact ⟨fun _ => hdev.mp rfl, fun _ => rfl⟩

/-- C5 (witness): a candidate with everything disabled against an
unnamed superset is accepted by the device-name rule. -/
theorem C5_device_name_rule_witness :
    matchFirst cfgDepth [emptyConfig] = some emptyConfig := by
  have h := C5_device_name_rule cfgDepth emptyConfig (by decide) (by decide)
  exact h.mpr (Or.inl rfl)

/-- C7: registering a module fails with data_not_initialized on a null
handle, with invalid_state outside the unconfigured state, and with the
duplicate code param_inplace on an already-registered handle; every
failure leaves the whole pipeline state (module list and lifecycle state
included) unchanged, and success happens only in the unconfigured state
with a fresh handle, appending it to the module list. -/
theorem C7_register_rules (st : PipelineState) (m : Nat) :
    add_cv_module st none = (Status.data_not_initialized, st) ∧
    (st.current_state ≠ PState.unconfigured →
      add_cv_module st (some m) = (Status.invalid_state, st)) ∧
    (st.current_state = PState.unconfigured → m ∈ st.cv_modules →
      add_cv_module st (some m) = (Status.param_inplace, st)) ∧
    ((add_cv_module st (some m)).1 = Status.no_error →
      st.current_state = PState.unconfigured ∧
      m ∉ st.cv_modules ∧
      (add_cv_module st (some m)).2.cv_modules = st.cv_modules ++ [m]) ∧
    ((add_cv_module st (some m)).1 ≠ Status.no_error →
      (add_cv_module st (some m)).2 = st) := by
  by_cases hc : m ∈ st.cv_modules <;>
    cases hst : st.current_state <;>
      simp [add_cv_module, hst, hc]

/-- C7 (witness): the null, invalid-state and duplicate cases at concrete
states. -/
theorem C7_register_rules_witness :
    add_cv_module stOneModule none =
      (Status.data_not_initialized, stOneModule) ∧
    add_cv_module stConfEmpty (some 3) = (Status.invalid_state, stConfEmpty) ∧
    add_cv_module stOneModule (some 3) =
      (Status.param_inplace, stOneModule) := by
  exact ⟨(C7_register_rules stOneModule 3).1,
         (C7_register_rules stConfEmpty 3).2.1 (by decide),
         (C7_register_rules stOneModule 3).2.2.1 rfl (by decide)⟩


/-- C10: starting from the configured state with a committed device
manager, if the device throws during start the call returns device_failed
and the pipeline is left exactly as before — state still configured,
device manager and module configurations unchanged, and the freshly built
consumer set never installed; the consumer list is replaced (and the state
moves to streaming) only when the device start succeeds. -/
theorem C10_start_device_failure (env : Env) (hasHandler : Bool)
    (st : PipelineState) (dm : Nat)
    (hstate : st.current_state = PState.configured)
    (hdm : st.device_manager = some dm) :
    (env.device_start_ok dm = false →
      start env hasHandler st = some (Status.device_failed, st)) ∧
    (env.device_start_ok dm = true →
      start env hasHandler st =
        some (Status.no_error,
              { st with
                 samples_consumers := build_consumers st hasHandler
                 current_state := PState.streaming })) := by
  cases h : env.device_start_ok dm <;>
    simp [start, hstate, start_from_configured, hdm, h]

/-- C10 (witness): with a device that refuses to start, start() from the
concretely configured pipeline fails with device_failed and changes
nothing. -/
theorem C10_start_device_failure_witness :
    start envNoStart true stConfigured =
      some (Status.device_failed, stConfigured) := by
  have h := C10_start_device_failure envNoStart true stConfigured 0
    (by decide) (by decide)
  exact h.1 rfl

/-- The pipeline obtained by a successful start() on the concretely
configured pipeline: streaming, consumers installed. -/
def stStreaming : PipelineState :=
  ((start envGood true stConfigured).getD (Status.no_error, initState)).2

/-- Length of the teardown trace. -/
theorem teardown_trace_length (st : PipelineState) :
    (pipeline_destructor st).length =
      1 + st.cv_modules.length +
        (if st.device_manager.isSome then 1 else 0) := by
  cases hdev : st.device_manager.isSome <;>
    simp [pipeline_destructor, ordered_resources_reset, hdev] <;> omega

/-- An element of a list never equal to x is never found at any index. -/
theorem getElem?_not_mem (L : List TEvent) (x : TEvent)
    (hL : ∀ e ∈ L, e ≠ x) (k : Nat) : L[k]? ≠ some x := by
  intro h
  exact absurd rfl (hL x (List.getElem?_mem h))

/-- In a list ending in x whose other elements differ from x, the index of
x is exactly the length of the prefix. -/
theorem getElem?_snoc_iff (L : List TEvent) (x : TEvent)
    (hL : ∀ e ∈ L, e ≠ x) (k : Nat) :
    (L ++ [x])[k]? = some x ↔ k = L.length := by
  constructor
  · intro h
    rw [List.getElem?_append] at h
    by_cases hk : k < L.length
    · rw [if_pos hk] at h
      exact absurd rfl (hL x (List.getElem?_mem h))
    · rw [if_neg hk] at h
      rcases hd : k - L.length with - | n
      · omega
      · rw [hd, List.getElem?_cons_succ] at h
        simp at h
  · intro h
    subst h
    rw [List.getElem?_append, if_neg (by omega), Nat.sub_self]
    rfl

/-- No event in the clear-then-flush prefix of a teardown trace is the
device stop. -/
theorem clear_flush_ne_deviceStop (mods : List Nat) :
    ∀ e ∈ TEvent.clearConsumers :: mods.map TEvent.flushModule,
      e ≠ TEvent.deviceStop := by
  intro e he
  rcases List.mem_cons.mp he with h | h
  · subst h
    intro hx
    cases hx
  · rcases List.mem_map.mp h with ⟨m, -, hm⟩
    rw [← hm]
    intro hx
    cases hx

/-- The device-stop event occurs in the teardown trace exactly when a
device manager is committed, and then exactly once, after the consumer
clear and all module flushes. -/
theorem trace_deviceStop_iff (st : PipelineState) (k : Nat) :
    (pipeline_destructor st)[k]? = some TEvent.deviceStop ↔
      (st.device_manager.isSome = true ∧ k = st.cv_modules.length + 1) := by
  rcases hdev : st.device_manager with - | d
  · have htr : pipeline_destructor st =
        TEvent.clearConsumers :: st.cv_modules.map TEvent.flushModule := by
      simp [pipeline_destructor, ordered_resources_reset, hdev]
    rw [htr]
    constructor
    · intro h
      exact absurd h
        (getElem?_not_mem _ _ (clear_flush_ne_deviceStop st.cv_modules) k)
    · rintro ⟨hs, -⟩
      simp at hs
  · have htr : pipeline_destructor st =
        (TEvent.clearConsumers :: st.cv_modules.map TEvent.flushModule) ++
          [TEvent.deviceStop] := by
      simp [pipeline_destructor, ordered_resources_reset, hdev]
    rw [htr,
        getElem?_snoc_iff _ _ (clear_flush_ne_deviceStop st.cv_modules) k]
    simp [List.length_map]

/-- C8: stop() is legal only from streaming (otherwise invalid_state and a
completely unchanged pipeline), moves the state to configured, and leaves
the committed device manager, the module configurations and the module
list untouched, so query_current_config still succeeds afterwards whenever
a device manager was committed. -/
theorem C8_stop_preserves_config (st : PipelineState) :
    (st.current_state ≠ PState.streaming →
      stop st = (Status.invalid_state, st, [])) ∧
    (st.current_state = PState.streaming →
      (stop st).1 = Status.no_error ∧
      (stop st).2.1.current_state = PState.configured ∧
      (stop st).2.1.device_manager = st.device_manager ∧
      (stop st).2.1.modules_configs = st.modules_configs ∧
      (stop st).2.1.cv_modules = st.cv_modules ∧
      (st.device_manager.isSome = true →
        query_current_config (stop st).2.1 = Status.no_error)) := by
  cases hst : st.current_state <;>
    simp [stop, hst, ordered_resources_reset, query_current_config,
          Option.isSome_iff_ne_none]

/-- C8 (witness): stopping the concretely streaming pipeline preserves the
committed configuration and query_current_config still succeeds. -/
theorem C8_stop_preserves_config_witness :
    (stop stStreaming).1 = Status.no_error ∧
    (stop stStreaming).2.1.device_manager = stStreaming.device_manager ∧
    query_current_config (stop stStreaming).2.1 = Status.no_error ∧
    stop stConfEmpty = (Status.invalid_state, stConfEmpty, []) := by
  have h := (C8_stop_preserves_config stStreaming).2 (by decide)
  have h2 := (C8_stop_preserves_config stConfEmpty).1 (by decide)
  exact ⟨h.1, h.2.2.1, h.2.2.2.2.2 (by decide), h2⟩

/-- C9: every teardown trace — produced identically by stop() from
streaming, by reset() from any state, and by destruction — consists of
exactly these steps in this strict order: the consumer clear first, then
one flush for every registered module in registration order (a flush event
occupies position j exactly when module j-1 is registered), then the
device stop exactly when a device manager is committed, as the last event:
nothing (no module flush, no consumer event) ever follows the device stop,
and the trace length accounts for every step. -/
theorem C9_teardown_order (st : PipelineState) :
    (pipeline_destructor st)[0]? = some TEvent.clearConsumers ∧
    (∀ j m, (pipeline_destructor st)[j]? = some (TEvent.flushModule m) ↔
      (1 ≤ j ∧ j ≤ st.cv_modules.length ∧
       st.cv_modules[j - 1]? = some m)) ∧
    (∀ k, (pipeline_destructor st)[k]? = some TEvent.deviceStop ↔
      (st.device_manager.isSome = true ∧ k = st.cv_modules.length + 1)) ∧
    (∀ i j : Nat, i < j →
      (pipeline_destructor st)[i]? = some TEvent.deviceStop →
      (pipeline_destructor st)[j]? = none) ∧
    (st.current_state = PState.streaming →
      (stop st).2.2 = pipeline_destructor st) ∧
    (reset st).2.2 = pipeline_destructor st ∧
    (ordered_resources_reset st).2 = pipeline_destructor st ∧
    (pipeline_destructor st).length =
      1 + st.cv_modules.length +
        (if st.device_manager.isSome then 1 else 0) := by
  refine ⟨?_, ?_, trace_deviceStop_iff st, ?_, ?_, rfl, rfl,
          teardown_trace_length st⟩
  · simp [pipeline_destructor, ordered_resources_reset]
  · intro j m
    constructor
    · intro h
      cases j with
      | zero =>
        rw [show pipeline_destructor st =
              TEvent.clearConsumers ::
                (st.cv_modules.map TEvent.flushModule ++
                 (if st.device_manager.isSome then [TEvent.deviceStop]
                  else []))
            from rfl, List.getElem?_cons_zero] at h
        simp at h
      | succ j =>
        rw [show pipeline_destructor st =
              TEvent.clearConsumers ::
                (st.cv_modules.map TEvent.flushModule ++
                 (if st.device_manager.isSome then [TEvent.deviceStop]
                  else []))
            from rfl] at h
        rw [List.getElem?_cons_succ, List.getElem?_append] at h
        by_cases hk : j < (st.cv_modules.map TEvent.flushModule).length
        · rw [if_pos hk, List.getElem?_map] at h
          rw [List.length_map] at hk
          rcases hmem : st.cv_modules[j]? with - | mj
          · rw [hmem] at h; simp at h
          · rw [hmem] at h
            simp at h
            refine ⟨by omega, by omega, ?_⟩
            rw [Nat.add_sub_cancel, hmem, h]
        · rw [if_neg hk] at h
          cases hdev : st.device_manager.isSome
          · rw [hdev] at h
            simp at h
          · rw [hdev] at h
            rcases hd2 : j - (st.cv_modules.map TEvent.flushModule).length
              with - | n
            · rw [hd2] at h; simp at h
            · rw [hd2] at h; simp at h
    · rintro ⟨h1, h2, h3⟩
      obtain ⟨i, rfl⟩ : ∃ i, j = i + 1 := ⟨j - 1, by omega⟩
      rw [Nat.add_sub_cancel] at h3
      rw [show pipeline_destructor st =
            TEvent.clearConsumers ::
              (st.cv_modules.map TEvent.flushModule ++
               (if st.device_manager.isSome then [TEvent.deviceStop]
                else []))
          from rfl, List.getElem?_cons_succ, List.getElem?_append,
          if_pos (by rw [List.length_map]; omega), List.getElem?_map, h3]
      rfl
  · intro i j hij hstop
    rcases (trace_deviceStop_iff st i).mp hstop with ⟨hdev, hi⟩
    apply List.getElem?_eq_none
    rw [teardown_trace_length, hdev]
    simp only [if_pos]
    omega
  · intro hst
    simp [stop, hst, pipeline_destructor]

/-- C9 (witness): the teardown trace of the concretely streaming pipeline
(one registered module, device committed) is exactly clear, flush of
module 7, device stop: the flush of the registered module does occur (at
position 1), the device stop is last, and nothing follows it. -/
theorem C9_teardown_order_witness :
    (pipeline_destructor stStreaming)[0]? = some TEvent.clearConsumers ∧
    (pipeline_destructor stStreaming)[1]? = some (TEvent.flushModule 7) ∧
    (pipeline_destructor stStreaming)[2]? = some TEvent.deviceStop ∧
    (pipeline_destructor stStreaming)[3]? = none ∧
    (pipeline_destructor stStreaming).length = 3 ∧
    (stop stStreaming).2.2 = pipeline_destructor stStreaming := by
  have h := C9_teardown_order stStreaming
  refine ⟨h.1,
          (h.2.1 1 7).mpr (by decide),
          (h.2.2.1 2).mpr (by decide),
          h.2.2.2.1 2 3 (by omega) ((h.2.2.1 2).mpr (by decide)),
          ?_,
          h.2.2.2.2.1 (by decide)⟩
  rw [h.2.2.2.2.2.2.2]
  decide

/-- An environment whose generator yields a failing candidate (device name
"NOPE" matches no device) followed by a succeeding one. -/
def envTwoSupersets : Env :=
  { envBase with gen_supersets := fun _ => [cfgNope, cfgDepth] }

/-- Whether a superset candidate succeeds end to end in one iteration of
the superset loop: the device manager constructs, every registered module
has a satisfying config, and every module accepts its actual config. -/
def superset_succeeds (env : Env) (mods : List Nat)
    (s : SupportedConfig) : Bool :=
  match env.dm_ctor (get_device_from_config env s) s with
  | none => false
  | some dm =>
    match collect_modules_configs env dm s mods with
    | none => false
    | some entries => apply_all env entries

/-- The superset sequence the Negotiation Engine works through: generated
from one group per registered module plus the restriction group. -/
def negotiation_supersets (env : Env) (cfg : SupportedConfig)
    (st : PipelineState) : List SupportedConfig :=
  env.gen_supersets (st.cv_modules.map env.module_configs ++ [[cfg]])

/-- A superset candidate succeeds exactly when some device manager and
module-config collection exist and every module accepts its config. -/
theorem superset_succeeds_true_iff (env : Env) (mods : List Nat)
    (s : SupportedConfig) :
    superset_succeeds env mods s = true ↔
      ∃ dm entries,
        env.dm_ctor (get_device_from_config env s) s = some dm ∧
        collect_modules_configs env dm s mods = some entries ∧
        apply_all env entries = true := by
  unfold superset_succeeds
  rcases h1 : env.dm_ctor (get_device_from_config env s) s with - | dm
  · simp
  · rcases h2 : collect_modules_configs env dm s mods with - | entries
    · simp [h2]
    · simp [h2]

/-- The superset loop commits exactly the first succeeding candidate:
candidates before index i all fail and the candidate at i succeeds, so the
loop returns success with that candidate's commit, having attempted
exactly the candidates up to and including i. -/
theorem negotiate_loop_first_success (env : Env) (cfg : SupportedConfig)
    (st : PipelineState) (ss : List SupportedConfig) (i : Nat)
    (hi : i < ss.length)
    (hbefore : ∀ j (hj : j < i),
      superset_succeeds env st.cv_modules
        (ss.get ⟨j, Nat.lt_trans hj hi⟩) = false)
    (hsucc : superset_succeeds env st.cv_modules (ss.get ⟨i, hi⟩) = true) :
    ∃ dm entries,
      env.dm_ctor (get_device_from_config env (ss.get ⟨i, hi⟩))
          (ss.get ⟨i, hi⟩) = some dm ∧
      collect_modules_configs env dm (ss.get ⟨i, hi⟩) st.cv_modules =
        some entries ∧
      apply_all env entries = true ∧
      negotiate_loop env cfg st ss =
        (Status.no_error,
         { st with
            device_manager := some dm
            modules_configs := entries
            user_time_sync := cfg.samples_time_sync_mode },
         ss.take (i + 1)) := by
  induction ss generalizing st i with
  | nil => exact absurd hi (Nat.not_lt_zero i)
  | cons s rest ih =>
    cases i with
    | zero =>
      rw [show (s :: rest).get ⟨0, hi⟩ = s from rfl,
          superset_succeeds_true_iff] at hsucc
      obtain ⟨dm, entries, hctor, hcol, happ⟩ := hsucc
      refine ⟨dm, entries, hctor, hcol, happ, ?_⟩
      simp [negotiate_loop, hctor, hcol, happ]
    | succ i2 =>
      have hi2 : i2 < rest.length := Nat.lt_of_succ_lt_succ hi
      have hfail0 : superset_succeeds env st.cv_modules s = false :=
        hbefore 0 (Nat.succ_pos i2)
      obtain ⟨dm, entries, hctor, hcol, happ, hloop⟩ :=
        ih { st with device_manager := none } i2 hi2
          (fun j hj => hbefore (j + 1) (Nat.succ_lt_succ hj))
          hsucc
      refine ⟨dm, entries, hctor, hcol, happ, ?_⟩
      rcases hctor0 : env.dm_ctor (get_device_from_config env s) s with - | dm0
      · simp only [negotiate_loop, hctor0]
        rw [hloop]
        rfl
      · rcases hcol0 : collect_modules_configs env dm0 s st.cv_modules
          with - | e0
        · simp only [negotiate_loop, hctor0, hcol0]
          rw [hloop]
          rfl
        · have happ0 : apply_all env e0 = false := by
            cases happv : apply_all env e0
            · rfl
            · exfalso
              have htr : superset_succeeds env st.cv_modules s = true :=
                (superset_succeeds_true_iff env st.cv_modules s).mpr
                  ⟨dm0, e0, hctor0, hcol0, happv⟩
              rw [hfail0] at htr
              cases htr
          simp only [negotiate_loop, hctor0, hcol0, happ0,
                     Bool.false_eq_true, if_false]
          rw [hloop]
          rfl

/-- C6: for every superset sequence the generator produces, the
Negotiation Engine (set_config_unlocked outside its degenerate rejection)
commits exactly the first superset, in generator order, for which device
acquisition succeeds, every registered module has a satisfying
configuration, and every module's config-apply succeeds; the attempted
candidates are exactly those up to and including the committed one (no
later candidate is attempted), and on commit the engine returns success,
installing that candidate's device manager and module configurations and
the caller's requested time-sync mode. -/
theorem C6_commits_first_success (env : Env) (cfg : SupportedConfig)
    (st : PipelineState) (i : Nat)
    (hne : (is_config_empty cfg && st.cv_modules.isEmpty) = false)
    (hi : i < (negotiation_supersets env cfg st).length)
    (hbefore : ∀ j (hj : j < i),
      superset_succeeds env st.cv_modules
        ((negotiation_supersets env cfg st).get
          ⟨j, Nat.lt_trans hj hi⟩) = false)
    (hsucc : superset_succeeds env st.cv_modules
      ((negotiation_supersets env cfg st).get ⟨i, hi⟩) = true) :
    ∃ dm entries,
      env.dm_ctor
          (get_device_from_config env
            ((negotiation_supersets env cfg st).get ⟨i, hi⟩))
          ((negotiation_supersets env cfg st).get ⟨i, hi⟩) = some dm ∧
      collect_modules_configs env dm
          ((negotiation_supersets env cfg st).get ⟨i, hi⟩)
          st.cv_modules = some entries ∧
      apply_all env entries = true ∧
      set_config_unlocked env cfg st =
        (Status.no_error,
         { st with
            device_manager := some dm
            modules_configs := entries
            user_time_sync := cfg.samples_time_sync_mode },
         (negotiation_supersets env cfg st).take (i + 1)) := by
  obtain ⟨dm, entries, hctor, hcol, happ, hloop⟩ :=
    negotiate_loop_first_success env cfg st
      (negotiation_supersets env cfg st) i hi hbefore hsucc
  refine ⟨dm, entries, hctor, hcol, happ, ?_⟩
  rw [show set_config_unlocked env cfg st =
        negotiate_loop env cfg st (negotiation_supersets env cfg st) by
      simp [set_config_unlocked, hne, negotiation_supersets]]
  exact hloop

/-- C6 (witness): with two generated supersets of which the first has an
unsatisfiable device name and the second succeeds, the engine returns
success and attempts exactly both candidates, in order. -/
theorem C6_commits_first_success_witness :
    (set_config_unlocked envTwoSupersets cfgDepth initState).1 =
      Status.no_error ∧
    (set_config_unlocked envTwoSupersets cfgDepth initState).2.1.device_manager =
      some 0 ∧
    (set_config_unlocked envTwoSupersets cfgDepth initState).2.2 =
      [cfgNope, cfgDepth] := by
  obtain ⟨dm, entries, hctor, hcol, happ, h⟩ :=
    C6_commits_first_success envTwoSupersets cfgDepth initState 1
      (by decide) (by decide)
      (by
        intro j hj
        have hj0 : j = 0 := by omega
        subst hj0
        show superset_succeeds envTwoSupersets initState.cv_modules
            ((negotiation_supersets envTwoSupersets cfgDepth initState).get
              ⟨0, by decide⟩) = false
        decide)
      (by decide)
  have hctor2 : envTwoSupersets.dm_ctor
      (get_device_from_config envTwoSupersets
        ((negotiation_supersets envTwoSupersets cfgDepth initState).get
          ⟨1, by decide⟩))
      ((negotiation_supersets envTwoSupersets cfgDepth initState).get
        ⟨1, by decide⟩) = some 0 := by decide
  have hdm : dm = 0 := Option.some.inj (hctor.symm.trans hctor2)
  rw [h, hdm]
  exact ⟨rfl, rfl, rfl⟩

end PipelineAsync
